import Mathlib

/-!
Verification of the streaming + rendering pipeline of the `ripe-atlas-tools`
measure command, shallowly embedded from:
  * `ripe/atlas/tools/renderers/raw.py`  (the raw renderer)
  * `ripe/atlas/tools/commands/measure.py` (the measure command)
Collaborators that are not part of the sources at hand (the `Stream`
controller in `streaming.py`, the renderer base class, the argument
validators, configuration loading) are modelled from the specification and
marked as such in their doc comments.
-/

set_option maxHeartbeats 1000000
set_option linter.unusedVariables false

namespace RipeAtlasTools

deriving instance DecidableEq for Except

/-! ## JSON values and the compact serialization used by `json.dumps`

`raw.py` renders each result with
`json.dumps(result.raw_data, separators=(",", ":")) + "\n"`.
We embed JSON values as a mutual inductive (numbers are modelled as
integers; floats do not occur in the claims under study) and the Python
`json.dumps` compact serialization with `ensure_ascii=True` semantics. -/

mutual

inductive Json where
  | null : Json
  | bool (b : Bool) : Json
  | num (n : Int) : Json
  | str (s : String) : Json
  | arr (xs : JsonArr) : Json
  | obj (xs : JsonObj) : Json

inductive JsonArr where
  | nil : JsonArr
  | cons (hd : Json) (tl : JsonArr) : JsonArr

inductive JsonObj where
  | nil : JsonObj
  | cons (key : String) (val : Json) (tl : JsonObj) : JsonObj

end

/-- Decimal digits of a natural number, most significant first, written with
explicit fuel so that its properties admit a plain induction. -/
def natDigitsAux : Nat → Nat → List Char
  | 0, _ => []
  | fuel + 1, n =>
    if n < 10 then [Char.ofNat (48 + n)]
    else natDigitsAux fuel (n / 10) ++ [Char.ofNat (48 + n % 10)]

/-- Decimal representation of a natural number, as produced by Python `repr`. -/
def natRepr (n : Nat) : String := ⟨natDigitsAux (n + 1) n⟩

/-- Decimal representation of an integer, as produced by Python `repr`. -/
def intRepr : Int → String
  | .ofNat n => natRepr n
  | .negSucc n => "-" ++ natRepr (n + 1)

/-- One lower-case hexadecimal digit. -/
def hexDigit (n : Nat) : Char :=
  if n < 10 then Char.ofNat (48 + n) else Char.ofNat (87 + n)

/-- Four lower-case hexadecimal digits, as in Python json \uXXXX escapes. -/
def hex4 (n : Nat) : String :=
  ⟨[hexDigit (n / 4096 % 16), hexDigit (n / 256 % 16),
    hexDigit (n / 16 % 16), hexDigit (n % 16)]⟩

/-- Escape of one character inside a JSON string literal, following Python
`json.dumps` with its default `ensure_ascii=True`: printable ASCII except
the quote and the backslash is kept, the short escapes are used for the
usual control characters, every other character becomes \uXXXX (a
surrogate pair beyond the BMP). -/
def pyEscapeChar (c : Char) : String :=
  if c = '"' then "\\\""
  else if c = '\\' then "\\\\"
  else if c = Char.ofNat 8 then "\\b"
  else if c = Char.ofNat 9 then "\\t"
  else if c = Char.ofNat 10 then "\\n"
  else if c = Char.ofNat 12 then "\\f"
  else if c = Char.ofNat 13 then "\\r"
  else if 32 ≤ c.toNat ∧ c.toNat ≤ 126 then ⟨[c]⟩
  else if c.toNat < 65536 then "\\u" ++ hex4 c.toNat
  else
    "\\u" ++ hex4 (55296 + (c.toNat - 65536) / 1024) ++
    "\\u" ++ hex4 (56320 + (c.toNat - 65536) % 1024)

/-- Concatenation of the escapes of a list of characters. -/
def escAux : List Char → String
  | [] => ""
  | c :: rest => pyEscapeChar c ++ escAux rest

/-- A JSON string literal: quotes around the escaped characters. -/
def pyEscapeString (s : String) : String :=
  "\"" ++ escAux s.data ++ "\""

mutual

/-- Embedding of `json.dumps(v, separators=(",", ":"))`: the compact
serialization, with "," between items and ":" between a key and its value,
and no whitespace of its own. -/
def pyDumps : Json → String
  | .null => "null"
  | .bool true => "true"
  | .bool false => "false"
  | .num n => intRepr n
  | .str s => pyEscapeString s
  | .arr xs => "[" ++ pyDumpsArr xs ++ "]"
  | .obj xs => "\x7b" ++ pyDumpsObj xs ++ "\x7d"

/-- Comma-separated serialization of the elements of a JSON array. -/
def pyDumpsArr : JsonArr → String
  | .nil => ""
  | .cons hd .nil => pyDumps hd
  | .cons hd (.cons h2 tl) => pyDumps hd ++ "," ++ pyDumpsArr (.cons h2 tl)

/-- Comma-separated serialization of the key:value pairs of a JSON object. -/
def pyDumpsObj : JsonObj → String
  | .nil => ""
  | .cons k v .nil => pyEscapeString k ++ ":" ++ pyDumps v
  | .cons k v (.cons k2 v2 tl) =>
    pyEscapeString k ++ ":" ++ pyDumps v ++ "," ++ pyDumpsObj (.cons k2 v2 tl)

end

/-! ### The serialized form never contains a raw newline character -/

/-- A string free of raw newline characters. -/
def noNl (s : String) : Prop := '\n' ∉ s.data

instance (s : String) : Decidable (noNl s) := by unfold noNl; infer_instance


/-! ## The raw renderer (`ripe/atlas/tools/renderers/raw.py`)

The base class constants `TYPE_PING`, ..., `TYPE_NTP` live in the renderer
base module, which is not among the sources; they are distinct type tags,
embedded as an enumeration named after the constants used in `raw.py`. -/

/-- Measurement-type tags, one per `TYPE_*` constant of the renderer base
class referenced by `raw.py`. -/
inductive RendererType where
  | ping | traceroute | dns | tls | http | ntp
deriving DecidableEq

/-- A decoded result, as consumed by a renderer: its raw payload plus the
metadata fields the data model gives it. -/
structure Result where
  raw_data : Json
  measurement_id : Nat
  probe_id : Nat

/-- Probe metadata optionally passed to a renderer. -/
structure ProbeInfo where
  id : Nat
  country_code : String

namespace Raw

/-- `Renderer.RENDERS` of `raw.py`: the declared supported types. -/
def Renderer.RENDERS : List RendererType :=
  [RendererType.ping, RendererType.traceroute, RendererType.dns,
   RendererType.tls, RendererType.http, RendererType.ntp]

/-- `Renderer.on_result` of `raw.py`:
`json.dumps(result.raw_data, separators=(",", ":")) + "\n"`. -/
def Renderer.on_result (result : Result) (probes : Option ProbeInfo) : String :=
  pyDumps result.raw_data ++ "\n"

end Raw

/-- Modelled from the spec: the selection-time compatibility check of the
renderer base module (not among the sources) — "selection must reject a
renderer offered for a type it does not support, failing with
`IncompatibleRendererError`". -/
def checkRendererCompatibility (renders : List RendererType)
    (t : RendererType) : Except String Unit :=
  if t ∈ renders then .ok () else .error "IncompatibleRendererError"

/-! ## The measure command (`ripe/atlas/tools/commands/measure.py`)

`Command.run`, `Command.dry_run`, `Command.create`, `Command.stream`,
`Command._get_source_kwargs`, `Command._get_measurement_kwargs` and
`Command._get_af` are embedded as pure functions.  The shared mutable state
(`self.arguments`, the global `conf` dictionary) is passed and returned
explicitly; the side effects that matter to the claims (printing, the
measurement-creation POST, opening the result stream) are recorded as an
`Action` trace.  The network's answers (the creation response, the way the
`Stream.stream` call ends) are parameters of the embedding. -/

/-- Truthiness of an optional integer in Python: `None` and `0` are falsy. -/
def pyOptNatTruthy : Option Nat → Bool
  | none => false
  | some n => n != 0

/-- Truthiness of an optional string in Python: `None` and `""` are falsy. -/
def pyOptStrTruthy : Option String → Bool
  | none => false
  | some s => s != ""

/-- Python `str(...)` of an optional integer: `None` prints as "None". -/
def pyReprOptNat : Option Nat → String
  | none => "None"
  | some n => natRepr n

/-- Python `str(...)` of an optional string: `None` prints as "None". -/
def pyReprOptStr : Option String → String
  | none => "None"
  | some s => s

/-- Python `str.capitalize`: first character upper-cased, the rest lowered. -/
def capitalize (s : String) : String :=
  match s.data with
  | [] => ""
  | c :: rest => String.mk (c.toUpper :: rest.map Char.toLower)

/-- Split of a character list at every dot, keeping empty runs, as
`str.split(".")` does. -/
def splitOnDot : List Char → List (List Char)
  | [] => [[]]
  | c :: rest =>
    if c = '.' then [] :: splitOnDot rest
    else
      match splitOnDot rest with
      | [] => [[c]]
      | p :: ps => (c :: p) :: ps

/-- Match of the pattern `^\d+\.\d+\.\d+\.\d+$` (with `\d` taken as the
ASCII digits): four nonempty runs of digits joined by dots. -/
def ipv4Core (s : String) : Bool :=
  let parts := splitOnDot s.data
  parts.length == 4 && parts.all (fun p => !p.isEmpty && p.all Char.isDigit)

/-- The whole regex match: `$` also accepts one trailing newline, as in
Python `re`. -/
def reMatchIPv4 (s : String) : Bool :=
  ipv4Core s ||
    (s.data.getLast? == some '\n' && ipv4Core (String.mk s.data.dropLast))

/-- Value of a list of ASCII decimal digits, most significant first. -/
def digitsToNat (l : List Char) : Nat :=
  l.foldl (fun acc c => acc * 10 + (c.toNat - 48)) 0

/-- Python `int(string)` restricted to the plain forms an option value
takes: an optional minus sign followed by decimal digits. -/
def pyParseInt (s : String) : Option Int :=
  match s.data with
  | [] => none
  | '-' :: rest =>
    if !rest.isEmpty && rest.all Char.isDigit then
      some (-(digitsToNat rest : Int))
    else none
  | l =>
    if l.all Char.isDigit then some (digitsToNat l : Int) else none

/-- Modelled from the spec: `ArgumentType.integer_range` of
`helpers/validators.py` (not among the sources) — an argparse type callable
that parses an integer and rejects values outside `[minimum, maximum]`, per
the option help texts in `measure.py` ("Value must be between 1 and 255"). -/
def ArgumentType.integer_range (minimum : Int) (maximum : Option Int)
    (s : String) : Except String Int :=
  match pyParseInt s with
  | none => .error ("invalid integer value: " ++ s)
  | some v =>
    if v < minimum then
      .error ("The value must be no less than " ++ intRepr minimum)
    else
      match maximum with
      | some m =>
        if m < v then .error ("The value must be no more than " ++ intRepr m)
        else .ok v
      | none => .ok v

/-- One heterogeneous value of the source dictionary (`type`/`value` hold a
string or an integer depending on the origin flag). -/
inductive SrcValue where
  | str (s : String)
  | nat (n : Nat)
deriving DecidableEq

/-- The `tags` entry of the source dictionary. -/
structure TagsSpec where
  incl : List String
  excl : List String
deriving DecidableEq

/-- The dictionary `conf["specification"]["source"]`: `none` in an optional
field models the key being absent. -/
structure SourceDict where
  requested : Nat
  type_ : Option String
  value : Option SrcValue
  tags : TagsSpec
deriving DecidableEq

/-- The dictionary `conf["specification"]["times"]`. -/
structure TimesSpec where
  one_off : Bool
  interval : Option Nat
deriving DecidableEq

/-- The dictionary `conf["specification"]`; `tags` maps an address-family
key ("ipv4"/"ipv6") and a measurement kind (or "all") to the configured
default tags. -/
structure Specification where
  af : Nat
  description : String
  times : TimesSpec
  source : SourceDict
  tags : String → String → TagsSpec

/-- The shared configuration `conf`, restricted to the entries the measure
command reads. -/
structure Conf where
  specification : Specification
  ripe_ncc_endpoint : String

/-- The parsed argparse namespace `self.arguments`, restricted to the
options declared in `Command.add_arguments`.  `from_pfx` stands for the
`--from-prefix` option.  A `none`/empty value models an option that was not
given and has a falsy default. -/
structure Arguments where
  renderer : Option String
  dry_run : Bool
  auth : String
  af : Option Nat
  description : String
  target : Option String
  no_report : Bool
  interval : Option Nat
  from_area : Option String
  from_country : Option String
  from_pfx : Option String
  from_asn : Option Nat
  from_probes : List Nat
  from_measurement : Option Nat
  probes : Nat
  include_tag : List String
  exclude_tag : List String
deriving DecidableEq

/-- The observable effects of one invocation: the POST that creates the
measurement, a line of output, or the construction of the result `Stream`
with its capture limit, idle timeout, renderer name, kind and measurement
id. -/
inductive Action where
  | createRequest
  | output (s : String)
  | openStream (capture_limit : Nat) (timeout : Nat) (renderer : Option String)
      (kind : String) (pk : Nat)
deriving DecidableEq

/-- How the inner `Stream(...).stream(...)` call ends: normal return,
`CaptureLimitExceeded`, `KeyboardInterrupt`, or some other exception. -/
inductive StreamOutcome where
  | finished
  | captureLimitExceeded
  | keyboardInterrupt
  | failure (msg : String)
deriving DecidableEq

/-- The measurement-creation response, with the error detail already
extracted as `_handle_api_error` does. -/
structure CreateResponse where
  is_success : Bool
  measurements : List Nat
  error_detail : String
deriving DecidableEq

/-- The result of `Command.run`: the action trace, the overall outcome
(`.error` models a propagated exception), and the configuration state
afterwards. -/
structure RunResult where
  actions : List Action
  result : Except String Unit
  conf : Conf

/-- Modelled from the spec: `colourise` of `helpers/colours.py` (not among
the sources); terminal colourization is declared out of scope, so it is
taken as the identity on the text content. -/
def colourise (s : String) (colour : String) : String := s

/-- The flags declared by `Command.add_arguments` in `measure.py`. -/
def Command.add_arguments_flags : List String :=
  ["--renderer", "--dry-run", "--auth", "--af", "--description", "--target",
   "--no-report", "--interval", "--from-area", "--from-country",
   "--from-prefix", "--from-asn", "--from-probes", "--from-measurement",
   "--probes", "--include-tag", "--exclude-tag"]

/-- `Command._get_af`: the explicit `--af`, else one guessed from the
target, else the configured one. -/
def Command.getAf (args : Arguments) (conf : Conf) : Nat :=
  if pyOptNatTruthy args.af then args.af.getD 0
  else if pyOptStrTruthy args.target then
    let t := args.target.getD ""
    if t.data.contains ':' then 6
    else if reMatchIPv4 t then 4
    else conf.specification.af
  else conf.specification.af

/-- `Command.clean_target` of the base measure command: a missing target
raises `RipeAtlasToolsException`. -/
def Command.cleanTarget (args : Arguments) : Except String String :=
  if pyOptStrTruthy args.target then .ok (args.target.getD "")
  else .error "You must specify a target for that kind of measurement"

/-- `Command.clean_description`. -/
def Command.cleanDescription (ty : String) (args : Arguments) (conf : Conf) :
    String :=
  if args.description != "" then args.description
  else if conf.specification.description != "" then
    conf.specification.description
  else capitalize ty ++ " measurement to " ++ pyReprOptStr args.target

/-- `Command._get_measurement_kwargs` of the base measure command: the
ordered key/value pairs (values as the strings `dry_run` prints), the
arguments afterwards (`no_report` is forced on when an interval is in
play), and the resulting `_is_oneoff`. -/
def Command.getMeasurementKwargs (ty : String) (args : Arguments)
    (conf : Conf) :
    Except String (List (String × String) × Arguments × Bool) :=
  match Command.cleanTarget args with
  | .error e => .error e
  | .ok target =>
    let r := [("af", natRepr (Command.getAf args conf)),
              ("description", Command.cleanDescription ty args conf)]
    if pyOptNatTruthy args.interval ||
        pyOptNatTruthy conf.specification.times.interval then
      .ok (r ++ [("interval", pyReprOptNat args.interval),
                 ("target", target)],
           { args with no_report := true }, false)
    else if !conf.specification.times.one_off then
      .error "Your configuration file appears to be setup to not create one-offs, but also offers no interval value.  Without one of these, a measurement cannot be created."
    else
      .ok (r ++ [("target", target)], args, true)

/-- `Command._get_source_kwargs`: starts from the dictionary stored at
`conf["specification"]["source"]`, sets `requested`, `type`/`value` for the
chosen origin flag and `tags`, and — because `r` aliases the stored
dictionary — stores the updated dictionary back into the configuration; the
returned dictionary and the one in the returned configuration are the same
value. -/
def Command.getSourceKwargs (ty : String) (args : Arguments) (conf : Conf) :
    SourceDict × Conf :=
  let r0 := conf.specification.source
  let r1 := { r0 with requested := args.probes }
  let tv : Option String × Option SrcValue :=
    if pyOptStrTruthy args.from_country then
      (some "country", some (.str (args.from_country.getD "")))
    else if pyOptStrTruthy args.from_area then
      (some "area", some (.str (args.from_area.getD "")))
    else if pyOptStrTruthy args.from_pfx then
      (some "prefix", some (.str (args.from_pfx.getD "")))
    else if pyOptNatTruthy args.from_asn then
      (some "asn", some (.nat (args.from_asn.getD 0)))
    else if !args.from_probes.isEmpty then
      (some "probes", some (.str (String.intercalate ","
        (args.from_probes.map natRepr))))
    else if pyOptNatTruthy args.from_measurement then
      (some "msm", some (.nat (args.from_measurement.getD 0)))
    else (r0.type_, r0.value)
  let r2 := { r1 with type_ := tv.1, value := tv.2 }
  let af := "ipv" ++ natRepr (Command.getAf args conf)
  let spec := conf.specification
  let incl :=
    if args.include_tag.isEmpty then
      args.include_tag ++ (spec.tags af ty).incl ++ (spec.tags af "all").incl
    else args.include_tag
  let excl :=
    if args.exclude_tag.isEmpty then
      args.exclude_tag ++ (spec.tags af ty).excl ++ (spec.tags af "all").excl
    else args.exclude_tag
  let r3 := { r2 with tags := { incl := incl, excl := excl } }
  (r3, { conf with specification := { conf.specification with source := r3 } })

/-- The URL under which the created measurement can be inspected:
`"{0}/measurements/{1}/".format(conf["ripe-ncc"]["endpoint"], pk)`. -/
def measurementUrl (conf : Conf) (pk : Nat) : String :=
  conf.ripe_ncc_endpoint ++ "/measurements/" ++ natRepr pk ++ "/"

/-- The notice `run` prints after a successful creation. -/
def lookingGoodMsg (url : String) : String :=
  "Looking good!  Your measurement was created and details about it can be found here:\n\n  " ++ url

/-- `Command._handle_api_error`: the message of the exception it raises. -/
def Command.handleApiErrorMsg (resp : CreateResponse) : String :=
  "There was a problem communicating with the RIPE Atlas infrastructure.  The message given was:\n\n  " ++ resp.error_detail

/-- `Command.stream`: construct `Stream(capture_limit=arguments.probes,
timeout=300)` and run it; `KeyboardInterrupt` and `CaptureLimitExceeded`
are swallowed, any other exception propagates, and the `finally` block
prints the disconnect notice with the measurement URL in every case. -/
def Command.stream (args : Arguments) (ty : String) (pk : Nat) (url : String)
    (outcome : StreamOutcome) : List Action × Except String Unit :=
  ([Action.output "Connecting to stream...",
    Action.openStream args.probes 300 args.renderer ty pk,
    Action.output ("Disconnecting from stream\n\nYou can find details about this measurement here:\n\n  " ++ url)],
   match outcome with
   | .failure msg => .error msg
   | _ => .ok ())

/-- "{:<25} {}".format(param, val): the parameter name padded on the right
to at least 25 characters, a space, then the value. -/
def fmtParamLine (param val : String) : String :=
  param ++ String.mk (List.replicate (25 - param.length) ' ') ++ " " ++ val

/-- The `"=" * 80` rule printed under the dry-run headers. -/
def eqBar : String := String.mk (List.replicate 80 '=')

/-- The lines `dry_run` prints for the source dictionary, one per key in
the model's field order, with the special multi-line formatting of the
`tags` entry. -/
def Command.sourceLines (src : SourceDict) : List String :=
  [fmtParamLine "requested" (natRepr src.requested)]
  ++ (match src.type_ with
      | some t => [fmtParamLine "type" t]
      | none => [])
  ++ (match src.value with
      | some (.str s) => [fmtParamLine "value" s]
      | some (.nat n) => [fmtParamLine "value" (natRepr n)]
      | none => [])
  ++ ["tags\n  include" ++ String.mk (List.replicate 17 ' ') ++
      String.intercalate ", " src.tags.incl ++
      "\n  exclude" ++ String.mk (List.replicate 17 ' ') ++
      String.intercalate ", " src.tags.excl ++ "\n"]

/-- `Command.dry_run`: print the definitions header, the measurement
parameters, the sources header and the source parameters; nothing but
output is produced. -/
def Command.dryRun (ty : String) (args : Arguments) (conf : Conf) :
    RunResult :=
  let header1 := colourise ("\nDefinitions:\n" ++ eqBar) "bold"
  match Command.getMeasurementKwargs ty args conf with
  | .error e => ⟨[Action.output header1], .error e, conf⟩
  | .ok (kwargs, args', _oneoff) =>
    let defLines := kwargs.map (fun kv => colourise (fmtParamLine kv.1 kv.2) "cyan")
    let header2 := colourise ("\nSources:\n" ++ eqBar) "bold"
    let p := Command.getSourceKwargs ty args' conf
    let srcLines := (Command.sourceLines p.1).map (fun l => colourise l "cyan")
    ⟨((header1 :: defLines) ++ (header2 :: srcLines)).map Action.output,
     .ok (), p.2⟩

/-- `Command.run`: dry-run short-circuits; otherwise create the measurement
(evaluating the measurement kwargs, then the source kwargs, then POSTing),
raise on an API error, print the measurement URL notice, and stream unless
`no_report` (possibly forced on by an interval) is set. -/
def Command.run (ty : String) (args : Arguments) (conf : Conf)
    (resp : CreateResponse) (outcome : StreamOutcome) : RunResult :=
  if args.dry_run then Command.dryRun ty args conf
  else
    match Command.getMeasurementKwargs ty args conf with
    | .error e => ⟨[], .error e, conf⟩
    | .ok (_kwargs, args', _oneoff) =>
      let p := Command.getSourceKwargs ty args' conf
      let conf' := p.2
      let acts0 := [Action.createRequest]
      if !resp.is_success then
        ⟨acts0, .error (Command.handleApiErrorMsg resp), conf'⟩
      else
        match resp.measurements with
        | [] => ⟨acts0, .error "IndexError: list index out of range", conf'⟩
        | pk :: _ =>
          let url := measurementUrl conf' pk
          let acts1 := acts0 ++ [Action.output (lookingGoodMsg url)]
          if args'.no_report then ⟨acts1, .ok (), conf'⟩
          else
            let sp := Command.stream args' ty pk url outcome
            ⟨acts1 ++ sp.1, sp.2, conf'⟩

/-- Modelled from the spec: argparse's handling of
`choices=Renderer.get_available()` on `--renderer` — a supplied name that
is not among the available renderers is rejected while the command line is
parsed, before `run` is entered ("configuration and renderer-selection
errors are detected and reported before the subscription is opened"). -/
def Command.parseRendererChoice (available : List String)
    (given : Option String) : Except String (Option String) :=
  match given with
  | none => .ok none
  | some r =>
    if r ∈ available then .ok (some r)
    else .error ("argument --renderer: invalid choice: " ++ r)

/-- One whole invocation: parse the `--renderer` choice, then run the
command; a parse error stops everything before any action happens. -/
def Command.invoke (available : List String) (ty : String)
    (rendererArg : Option String) (args : Arguments) (conf : Conf)
    (resp : CreateResponse) (outcome : StreamOutcome) :
    List Action × Except String Unit :=
  match Command.parseRendererChoice available rendererArg with
  | .error e => ([], .error e)
  | .ok r =>
    let res := Command.run ty { args with renderer := r } conf resp outcome
    (res.actions, res.result)

/-- Modelled from the spec: the counting core of the `Stream` controller
(`streaming.py` is not among the sources) — each result is rendered, the
received count is incremented, and "capture limit check happens strictly
after increment and after rendering the triggering result"; a limit of `0`
never self-terminates by count.  Returns the rendered outputs and
`some n` when the controller stopped itself after the `n`-th result. -/
def captureRun (captureLimit : Nat) : List String → Nat →
    List String × Option Nat
  | [], _ => ([], none)
  | r :: rest, count =>
    let count' := count + 1
    if 0 < captureLimit ∧ captureLimit ≤ count' then ([r], some count')
    else
      let p := captureRun captureLimit rest count'
      (r :: p.1, p.2)

/-! ### Concrete fixtures used by the witnesses -/

/-- A small concrete configuration. -/
def exampleConf : Conf :=
  { specification :=
      { af := 4
        description := ""
        times := { one_off := true, interval := none }
        source := { requested := 10, type_ := some "area",
                    value := some (.str "WW"), tags := ⟨[], []⟩ }
        tags := fun _ _ => ⟨[], []⟩ }
    ripe_ncc_endpoint := "https://atlas.ripe.net" }

/-- A small concrete argument namespace for `measure ping`. -/
def exampleArgs : Arguments :=
  { renderer := none
    dry_run := false
    auth := "KEY"
    af := none
    description := ""
    target := some "example.com"
    no_report := false
    interval := none
    from_area := none
    from_country := none
    from_pfx := none
    from_asn := none
    from_probes := []
    from_measurement := none
    probes := 3
    include_tag := []
    exclude_tag := [] }

/-- A successful creation response for measurement 7. -/
def exampleResp : CreateResponse :=
  { is_success := true, measurements := [7], error_detail := "" }

/-- `exampleArgs` with `--interval 600` given and `--no-report` not given. -/
def intervalArgs : Arguments := { exampleArgs with interval := some 600 }

/-- `exampleArgs` with `--dry-run` given. -/
def dryArgs : Arguments := { exampleArgs with dry_run := true }

/-- `exampleArgs` with `--from-country GR` given. -/
def countryArgs : Arguments := { exampleArgs with from_country := some "GR" }

/-! ## Lemmas: the compact serialization never contains a raw newline -/

theorem noNl_append {a b : String} (ha : noNl a) (hb : noNl b) : noNl (a ++ b) := by
  unfold noNl at *
  intro h
  rw [show (a ++ b).data = a.data ++ b.data from rfl, List.mem_append] at h
  exact h.elim ha hb

theorem hexDigit_ne_nl : ∀ n < 16, hexDigit n ≠ '\n' := by decide

theorem noNl_hex4 (n : Nat) : noNl (hex4 n) := by
  unfold noNl hex4
  intro h
  simp only [String.data, List.mem_cons, List.not_mem_nil, or_false] at h
  rcases h with h | h | h | h <;>
    exact hexDigit_ne_nl _ (Nat.mod_lt _ (by decide)) h.symm

theorem noNl_pyEscapeChar (c : Char) : noNl (pyEscapeChar c) := by
  unfold pyEscapeChar
  split_ifs with h1 h2 h3 h4 h5 h6 h7 h8 h9
  · decide
  · decide
  · decide
  · decide
  · decide
  · decide
  · decide
  · intro h
    have h' : '\n' = c := List.mem_singleton.mp h
    have : c.toNat = 10 := by rw [← h']; decide
    omega
  · exact noNl_append (by decide) (noNl_hex4 _)
  · exact noNl_append
      (noNl_append (noNl_append (by decide) (noNl_hex4 _)) (by decide))
      (noNl_hex4 _)

theorem noNl_escAux : ∀ cs : List Char, noNl (escAux cs)
  | [] => by decide
  | c :: rest => noNl_append (noNl_pyEscapeChar c) (noNl_escAux rest)

theorem noNl_pyEscapeString (s : String) : noNl (pyEscapeString s) :=
  noNl_append (noNl_append (by decide) (noNl_escAux s.data)) (by decide)

theorem digitChar_ne_nl : ∀ k < 10, Char.ofNat (48 + k) ≠ '\n' := by decide

theorem noNl_natDigitsAux : ∀ fuel n : Nat, '\n' ∉ natDigitsAux fuel n := by
  intro fuel
  induction fuel with
  | zero => intro n; simp [natDigitsAux]
  | succ f ih =>
    intro n
    unfold natDigitsAux
    split
    · intro h
      rw [List.mem_singleton] at h
      exact digitChar_ne_nl n (by omega) h.symm
    · intro h
      rw [List.mem_append, List.mem_singleton] at h
      rcases h with h | h
      · exact ih _ h
      · exact digitChar_ne_nl (n % 10) (Nat.mod_lt _ (by decide)) h.symm

theorem noNl_natRepr (n : Nat) : noNl (natRepr n) := noNl_natDigitsAux _ n

theorem noNl_intRepr : ∀ n : Int, noNl (intRepr n)
  | .ofNat n => noNl_natRepr n
  | .negSucc n => noNl_append (by decide) (noNl_natRepr (n + 1))

mutual

theorem noNl_pyDumps : ∀ j : Json, noNl (pyDumps j)
  | .null => by simp only [pyDumps]; decide
  | .bool true => by simp only [pyDumps]; decide
  | .bool false => by simp only [pyDumps]; decide
  | .num n => by simp only [pyDumps]; exact noNl_intRepr n
  | .str s => by simp only [pyDumps]; exact noNl_pyEscapeString s
  | .arr xs => by
    simp only [pyDumps]
    exact noNl_append (noNl_append (by decide) (noNl_pyDumpsArr xs)) (by decide)
  | .obj xs => by
    simp only [pyDumps]
    exact noNl_append (noNl_append (by decide) (noNl_pyDumpsObj xs)) (by decide)

theorem noNl_pyDumpsArr : ∀ xs : JsonArr, noNl (pyDumpsArr xs)
  | .nil => by simp only [pyDumpsArr]; decide
  | .cons hd .nil => by simp only [pyDumpsArr]; exact noNl_pyDumps hd
  | .cons hd (.cons h2 tl) => by
    simp only [pyDumpsArr]
    exact noNl_append (noNl_append (noNl_pyDumps hd) (by decide))
      (noNl_pyDumpsArr (.cons h2 tl))

theorem noNl_pyDumpsObj : ∀ xs : JsonObj, noNl (pyDumpsObj xs)
  | .nil => by simp only [pyDumpsObj]; decide
  | .cons k v .nil => by
    simp only [pyDumpsObj]
    exact noNl_append (noNl_append (noNl_pyEscapeString k) (by decide))
      (noNl_pyDumps v)
  | .cons k v (.cons k2 v2 tl) => by
    simp only [pyDumpsObj]
    exact noNl_append
      (noNl_append
        (noNl_append (noNl_append (noNl_pyEscapeString k) (by decide))
          (noNl_pyDumps v))
        (by decide))
      (noNl_pyDumpsObj (.cons k2 v2 tl))

end

theorem count_nl_of_noNl {s : String} (h : noNl s) :
    (s ++ "\n").data.count '\n' = 1 := by
  rw [show (s ++ "\n").data = s.data ++ "\n".data from rfl, List.count_append]
  rw [List.count_eq_zero.mpr h]
  decide

/-- C5: for every result, the raw renderer's `on_result` returns exactly the
compact JSON serialization of the result's raw payload (item separator ","
and key separator ":", no extra whitespace) followed by a single terminating
newline, so each rendered result is one newline-terminated line of compact
JSON: the output equals `pyDumps` of the payload plus `"\n"`, the serialized
payload itself contains no newline, and the whole output contains exactly
one newline. -/
theorem claim_C5_raw_on_result (r : Result) (p : Option ProbeInfo) :
    Raw.Renderer.on_result r p = pyDumps r.raw_data ++ "\n" ∧
    noNl (pyDumps r.raw_data) ∧
    (Raw.Renderer.on_result r p).data.count '\n' = 1 := by
  refine ⟨rfl, noNl_pyDumps r.raw_data, ?_⟩
  exact count_nl_of_noNl (noNl_pyDumps r.raw_data)

/-- C6: the raw renderer's `RENDERS` contains exactly the six measurement
types ping, traceroute, dns, tls, http and ntp (every type tag occurs, with
no duplicates); in particular ping is supported, so the compatibility check
for the raw renderer on a ping measurement succeeds. -/
theorem claim_C6_renders :
    Raw.Renderer.RENDERS =
      [RendererType.ping, RendererType.traceroute, RendererType.dns,
       RendererType.tls, RendererType.http, RendererType.ntp] ∧
    (∀ t : RendererType, t ∈ Raw.Renderer.RENDERS) ∧
    Raw.Renderer.RENDERS.Nodup ∧
    RendererType.ping ∈ Raw.Renderer.RENDERS ∧
    checkRendererCompatibility Raw.Renderer.RENDERS RendererType.ping =
      .ok () := by
  refine ⟨rfl, ?_, by decide, by decide, rfl⟩
  intro t
  cases t <;> decide

/-- C7: the raw renderer's `on_result` is a deterministic function of the
result's raw payload alone — two results with the same raw payload render to
identical strings whatever the probe-metadata argument and whatever their
other fields; purity (no I/O, no mutation) is captured by the embedding of
`on_result` as a plain function. -/
theorem claim_C7_pure (r₁ r₂ : Result) (p₁ p₂ : Option ProbeInfo)
    (h : r₁.raw_data = r₂.raw_data) :
    Raw.Renderer.on_result r₁ p₁ = Raw.Renderer.on_result r₂ p₂ := by
  unfold Raw.Renderer.on_result
  rw [h]

/-- C7 witness: two concrete results sharing a raw payload but differing in
measurement id, probe id and probe-metadata argument render identically. -/
theorem claim_C7_pure_witness :
    Raw.Renderer.on_result ⟨Json.str "rtt", 1000192, 1⟩ none =
    Raw.Renderer.on_result ⟨Json.str "rtt", 17, 2⟩ (some ⟨7, "NL"⟩) :=
  claim_C7_pure ⟨Json.str "rtt", 1000192, 1⟩ ⟨Json.str "rtt", 17, 2⟩
    none (some ⟨7, "NL"⟩) rfl

/-- Everything `dry_run` emits is a line of output. -/
theorem dryRun_actions_output (ty : String) (args : Arguments) (conf : Conf)
    {a : Action} (h : a ∈ (Command.dryRun ty args conf).actions) :
    ∃ s, a = Action.output s := by
  unfold Command.dryRun at h
  rcases hk : Command.getMeasurementKwargs ty args conf with e | ⟨kw, args', oo⟩ <;>
    rw [hk] at h <;> simp only [List.mem_singleton, List.mem_map] at h
  · exact ⟨_, h⟩
  · obtain ⟨s, _, rfl⟩ := h
    exact ⟨s, rfl⟩

/-- What `_get_measurement_kwargs` does to the shared arguments: `probes`
is untouched, and `no_report` is forced on exactly when an interval (CLI
or configured) is in play. -/
theorem getMeasurementKwargs_args (ty : String) (args : Arguments)
    (conf : Conf) (v : List (String × String) × Arguments × Bool)
    (hk : Command.getMeasurementKwargs ty args conf = .ok v) :
    v.2.1 = { args with no_report := args.no_report ||
        (pyOptNatTruthy args.interval ||
         pyOptNatTruthy conf.specification.times.interval) } := by
  unfold Command.getMeasurementKwargs at hk
  split at hk
  · exact Except.noConfusion hk
  · by_cases hcond : (pyOptNatTruthy args.interval ||
        pyOptNatTruthy conf.specification.times.interval) = true
    · rw [if_pos hcond] at hk
      injection hk with hk
      rw [← hk, hcond]
      simp
    · rw [if_neg hcond] at hk
      have hcond' : (pyOptNatTruthy args.interval ||
          pyOptNatTruthy conf.specification.times.interval) = false := by
        revert hcond
        cases pyOptNatTruthy args.interval <;>
          cases pyOptNatTruthy conf.specification.times.interval <;> simp
      split at hk
      · exact Except.noConfusion hk
      · injection hk with hk
        rw [← hk, hcond']
        simp

/-- C1: whenever an invocation of the measure command proceeds to
streaming, the `Stream` is constructed with capture limit equal to the
`--probes` argument and idle timeout equal to 300 seconds, and the measure
command declares no separate capture-limit or idle-timeout flag. -/
theorem claim_C1_capture_limit_timeout (ty : String) (args : Arguments)
    (conf : Conf) (resp : CreateResponse) (outcome : StreamOutcome)
    (cl t : Nat) (r : Option String) (k : String) (pk : Nat)
    (h : Action.openStream cl t r k pk ∈
      (Command.run ty args conf resp outcome).actions) :
    cl = args.probes ∧ t = 300 ∧
    "--capture-limit" ∉ Command.add_arguments_flags ∧
    "--idle-timeout" ∉ Command.add_arguments_flags ∧
    "--timeout" ∉ Command.add_arguments_flags := by
  have main : cl = args.probes ∧ t = 300 := by
    unfold Command.run at h
    by_cases hdry : args.dry_run
    · rw [if_pos hdry] at h
      obtain ⟨s, hs⟩ := dryRun_actions_output _ _ _ h
      cases hs
    · rw [if_neg hdry] at h
      rcases hk : Command.getMeasurementKwargs ty args conf with e | ⟨kw, args', oo⟩ <;>
        rw [hk] at h
      · simp at h
      · have hargs : args'.probes = args.probes := by
          have := getMeasurementKwargs_args ty args conf (kw, args', oo) hk
          simp only at this
          rw [this]
        simp only at h
        by_cases hsucc : (!resp.is_success) = true
        · rw [if_pos hsucc] at h
          simp at h
        · rw [if_neg hsucc] at h
          rcases hms : resp.measurements with _ | ⟨pk', rest⟩ <;> rw [hms] at h
          · simp at h
          · simp only at h
            by_cases hnr : args'.no_report = true
            · rw [if_pos hnr] at h
              simp at h
            · rw [if_neg hnr] at h
              simp only [Command.stream, List.mem_append, List.mem_cons,
                List.mem_singleton, List.not_mem_nil, or_false] at h
              rcases h with (h | h) | h | h | h
              · exact Action.noConfusion h
              · exact Action.noConfusion h
              · exact Action.noConfusion h
              · injection h with h1 h2 h3 h4 h5
                exact ⟨h1.trans hargs, h2⟩
              · exact Action.noConfusion h
  exact ⟨main.1, main.2, by decide, by decide, by decide⟩

/-- C1 witness: a concrete successful invocation with `--probes 3` opens
the stream with capture limit 3 and timeout 300. -/
theorem claim_C1_witness :
    3 = exampleArgs.probes ∧ (300 : Nat) = 300 ∧
    "--capture-limit" ∉ Command.add_arguments_flags ∧
    "--idle-timeout" ∉ Command.add_arguments_flags ∧
    "--timeout" ∉ Command.add_arguments_flags :=
  claim_C1_capture_limit_timeout "ping" exampleArgs exampleConf exampleResp
    .finished 3 300 none "ping" 7 (by decide)

/-- C3: a streaming session that ends because the capture limit was
reached (`CaptureLimitExceeded`) or because the user interrupted
(`KeyboardInterrupt`) makes `Command.stream` return cleanly, with no
propagated error, after printing the disconnect notice that carries the
URL where the measurement's results can be retrieved. -/
theorem claim_C3_clean_stop (args : Arguments) (ty : String) (pk : Nat)
    (url : String) (outcome : StreamOutcome)
    (h : outcome = .captureLimitExceeded ∨ outcome = .keyboardInterrupt) :
    (Command.stream args ty pk url outcome).2 = .ok () ∧
    Action.output ("Disconnecting from stream\n\nYou can find details about this measurement here:\n\n  " ++ url) ∈
      (Command.stream args ty pk url outcome).1 := by
  rcases h with rfl | rfl <;>
    exact ⟨rfl, by simp [Command.stream]⟩

/-- C3 witness: a concrete capture-limit stop is clean and prints the
notice with the URL. -/
theorem claim_C3_witness :
    (Command.stream exampleArgs "ping" 7 "https://atlas.ripe.net/measurements/7/"
        .captureLimitExceeded).2 = .ok () ∧
    Action.output ("Disconnecting from stream\n\nYou can find details about this measurement here:\n\n  " ++
        "https://atlas.ripe.net/measurements/7/") ∈
      (Command.stream exampleArgs "ping" 7
        "https://atlas.ripe.net/measurements/7/" .captureLimitExceeded).1 :=
  claim_C3_clean_stop exampleArgs "ping" 7
    "https://atlas.ripe.net/measurements/7/" .captureLimitExceeded (Or.inl rfl)

/-- C2 counterexample: an invocation cannot supply a capture limit of 0 —
the capture limit is the `--probes` value, and the `--probes` validator
(minimum 1) rejects "0" at parsing time. -/
theorem claim_C2_counterexample :
    ArgumentType.integer_range 1 none "0" =
      .error "The value must be no less than 1" := by
  rfl

/-- C2 amended: a capture limit of 0 means unbounded capture in the
modelled stream controller — it renders every result and never
self-terminates by count — but the measure command derives the capture
limit from `--probes`, whose validator enforces a minimum of 1, so an
invocation cannot supply a capture limit of 0; the value 0 is not
reachable from the command line. -/
theorem claim_C2_amended_capture_limit :
    (∀ (results : List String) (count : Nat),
        captureRun 0 results count = (results, none)) ∧
    (∀ (s : String) (v : Int),
        ArgumentType.integer_range 1 none s = .ok v → 1 ≤ v) := by
  constructor
  · intro results
    induction results with
    | nil => intro count; rfl
    | cons r rest ih =>
      intro count
      rw [captureRun, if_neg (by omega)]
      simp only [ih]
  · intro s v h
    unfold ArgumentType.integer_range at h
    split at h
    · exact Except.noConfusion h
    · split at h
      · exact Except.noConfusion h
      next hw =>
        injection h with h
        omega

/-- C2 witness: the validator accepts 5 (which is ≥ 1), and with capture
limit 0 the controller renders all of three results without stopping. -/
theorem claim_C2_witness :
    (1 : Int) ≤ 5 ∧ captureRun 0 ["a", "b", "c"] 0 = (["a", "b", "c"], none) :=
  ⟨claim_C2_amended_capture_limit.2 "5" 5 (by rfl),
   claim_C2_amended_capture_limit.1 ["a", "b", "c"] 0⟩

/-- C4 counterexample: with `--interval` given and `--no-report` not given,
the measurement is created successfully, yet no stream is ever opened —
the claim's "streaming iff the `--no-report` flag is not set" fails,
because measurement creation forces `no_report` on when an interval is in
play. -/
theorem claim_C4_counterexample :
    intervalArgs.no_report = false ∧
    intervalArgs.dry_run = false ∧
    exampleResp.is_success = true ∧
    Action.createRequest ∈
      (Command.run "ping" intervalArgs exampleConf exampleResp
        .finished).actions ∧
    ((Command.run "ping" intervalArgs exampleConf exampleResp
        .finished).actions.all
      (fun a => match a with
        | .openStream _ _ _ _ _ => false
        | _ => true)) = true := by
  decide

/-- C4 amended: when the measurement is created successfully, streaming is
started if and only if the value of `no_report` after measurement creation
is false; `--no-report` set at invocation keeps it true, but `--interval`
(or a configured interval) also forces it on during creation.  When the
effective `no_report` is true, the only effects are the creation request
and the measurement-URL notice. -/
theorem claim_C4_amended_no_report (ty : String) (args : Arguments)
    (conf : Conf) (resp : CreateResponse) (outcome : StreamOutcome)
    (kw : List (String × String)) (args' : Arguments) (oo : Bool)
    (hdry : args.dry_run = false)
    (hk : Command.getMeasurementKwargs ty args conf = .ok (kw, args', oo))
    (hsucc : resp.is_success = true)
    (pk : Nat) (rest : List Nat) (hms : resp.measurements = pk :: rest) :
    ((∃ cl t r k p, Action.openStream cl t r k p ∈
        (Command.run ty args conf resp outcome).actions) ↔
      args'.no_report = false) ∧
    (args.no_report = true → args'.no_report = true) ∧
    (args'.no_report = true →
      (Command.run ty args conf resp outcome).actions =
        [Action.createRequest,
         Action.output (lookingGoodMsg (measurementUrl
           (Command.getSourceKwargs ty args' conf).2 pk))]) := by
  have hnr_mono : args.no_report = true → args'.no_report = true := by
    intro hh
    have hc := getMeasurementKwargs_args ty args conf (kw, args', oo) hk
    simp only at hc
    rw [hc]
    simp [hh]
  rcases Bool.eq_false_or_eq_true args'.no_report with hnr | hnr
  · have hacts : (Command.run ty args conf resp outcome).actions =
        [Action.createRequest,
         Action.output (lookingGoodMsg (measurementUrl
           (Command.getSourceKwargs ty args' conf).2 pk))] := by
      unfold Command.run
      simp only [hdry, hk, hsucc, hms, hnr, Bool.not_true,
        Bool.false_eq_true, if_false, if_true, List.singleton_append,
        List.cons_append, List.nil_append]
    refine ⟨?_, hnr_mono, fun _ => hacts⟩
    apply iff_of_false
    · rintro ⟨cl, t, r, k, p, hm⟩
      rw [hacts] at hm
      simp at hm
    · rw [hnr]
      simp
  · have hacts : (Command.run ty args conf resp outcome).actions =
        [Action.createRequest,
         Action.output (lookingGoodMsg (measurementUrl
           (Command.getSourceKwargs ty args' conf).2 pk)),
         Action.output "Connecting to stream...",
         Action.openStream args'.probes 300 args'.renderer ty pk,
         Action.output ("Disconnecting from stream\n\nYou can find details about this measurement here:\n\n  " ++
           measurementUrl (Command.getSourceKwargs ty args' conf).2 pk)] := by
      unfold Command.run Command.stream
      simp only [hdry, hk, hsucc, hms, hnr, Bool.not_true,
        Bool.false_eq_true, if_false, if_true, List.singleton_append,
        List.cons_append, List.nil_append, List.append_assoc]
    refine ⟨?_, hnr_mono, fun hcontra => absurd hcontra (by simp [hnr])⟩
    apply iff_of_true
    · exact ⟨args'.probes, 300, args'.renderer, ty, pk, by rw [hacts]; simp⟩
    · exact hnr

/-- C4 witness: a concrete successful invocation without `--no-report` and
without `--interval` does open a stream. -/
theorem claim_C4_witness :
    ∃ cl t r k p, Action.openStream cl t r k p ∈
      (Command.run "ping" exampleArgs exampleConf exampleResp
        .finished).actions :=
  (claim_C4_amended_no_report "ping" exampleArgs exampleConf exampleResp
      .finished
      [("af", "4"), ("description", "Ping measurement to example.com"),
       ("target", "example.com")]
      exampleArgs true rfl (by decide) rfl 7 [] (by decide)).1.mpr rfl

/-- C8: an invocation naming a renderer that is not among the available
renderers is rejected while the arguments are parsed: the whole invocation
produces no action at all — no measurement-creation request, no stream —
and reports the parse error. -/
theorem claim_C8_fail_fast (available : List String) (ty : String)
    (r : String) (args : Arguments) (conf : Conf) (resp : CreateResponse)
    (outcome : StreamOutcome) (h : r ∉ available) :
    Command.invoke available ty (some r) args conf resp outcome =
      ([], .error ("argument --renderer: invalid choice: " ++ r)) ∧
    Action.createRequest ∉
      (Command.invoke available ty (some r) args conf resp outcome).1 ∧
    ∀ cl t rr k pk, Action.openStream cl t rr k pk ∉
      (Command.invoke available ty (some r) args conf resp outcome).1 := by
  have hp : Command.parseRendererChoice available (some r) =
      .error ("argument --renderer: invalid choice: " ++ r) := by
    have h0 : Command.parseRendererChoice available (some r) =
        if r ∈ available then .ok (some r)
        else .error ("argument --renderer: invalid choice: " ++ r) := rfl
    rw [h0, if_neg h]
  have he : Command.invoke available ty (some r) args conf resp outcome =
      ([], .error ("argument --renderer: invalid choice: " ++ r)) := by
    unfold Command.invoke
    rw [hp]
  refine ⟨he, ?_, ?_⟩
  · rw [he]
    simp
  · intro cl t rr k pk
    rw [he]
    simp

/-- C8 witness: asking for the renderer "fancy" when only "json" and "raw"
are available fails at parse time with no action taken. -/
theorem claim_C8_witness :
    Command.invoke ["json", "raw"] "ping" (some "fancy") exampleArgs
        exampleConf exampleResp .finished =
      ([], .error ("argument --renderer: invalid choice: " ++ "fancy")) :=
  (claim_C8_fail_fast ["json", "raw"] "ping" "fancy" exampleArgs exampleConf
    exampleResp .finished (by decide)).1

/-- C9: with `--dry-run`, `run` only performs the dry run — it prints the
measurement definition and source parameters and returns; no
measurement-creation request is sent and no stream is opened. -/
theorem claim_C9_dry_run (ty : String) (args : Arguments) (conf : Conf)
    (resp : CreateResponse) (outcome : StreamOutcome)
    (h : args.dry_run = true) :
    Command.run ty args conf resp outcome = Command.dryRun ty args conf ∧
    Action.createRequest ∉ (Command.run ty args conf resp outcome).actions ∧
    ∀ cl t r k pk, Action.openStream cl t r k pk ∉
      (Command.run ty args conf resp outcome).actions := by
  have heq : Command.run ty args conf resp outcome =
      Command.dryRun ty args conf := by
    unfold Command.run
    rw [if_pos h]
  refine ⟨heq, ?_, ?_⟩
  · rw [heq]
    intro hmem
    obtain ⟨s, hs⟩ := dryRun_actions_output _ _ _ hmem
    exact Action.noConfusion hs
  · intro cl t r k pk
    rw [heq]
    intro hmem
    obtain ⟨s, hs⟩ := dryRun_actions_output _ _ _ hmem
    exact Action.noConfusion hs

/-- C9 witness: a concrete dry run reduces to the dry-run output alone. -/
theorem claim_C9_witness :
    Command.run "ping" dryArgs exampleConf exampleResp .finished =
      Command.dryRun "ping" dryArgs exampleConf :=
  (claim_C9_dry_run "ping" dryArgs exampleConf exampleResp .finished rfl).1

/-- C10: `_get_source_kwargs` returns the very dictionary stored in the
configuration under `specification.source` — after the call the stored
dictionary and the returned one are the same value — and it sets
`requested` to the probes argument, sets `tags` to the merged include and
exclude lists, and sets `type`/`value` when an origin flag (here
`--from-country`) is given: the call updates the shared configuration
state rather than building an independent value. -/
theorem claim_C10_source_kwargs (ty : String) (args : Arguments)
    (conf : Conf) :
    ((Command.getSourceKwargs ty args conf).2).specification.source =
      (Command.getSourceKwargs ty args conf).1 ∧
    (Command.getSourceKwargs ty args conf).1.requested = args.probes ∧
    (Command.getSourceKwargs ty args conf).1.tags =
      { incl :=
          if args.include_tag.isEmpty then
            args.include_tag ++
              (conf.specification.tags
                ("ipv" ++ natRepr (Command.getAf args conf)) ty).incl ++
              (conf.specification.tags
                ("ipv" ++ natRepr (Command.getAf args conf)) "all").incl
          else args.include_tag
        excl :=
          if args.exclude_tag.isEmpty then
            args.exclude_tag ++
              (conf.specification.tags
                ("ipv" ++ natRepr (Command.getAf args conf)) ty).excl ++
              (conf.specification.tags
                ("ipv" ++ natRepr (Command.getAf args conf)) "all").excl
          else args.exclude_tag } ∧
    (pyOptStrTruthy args.from_country = true →
      (Command.getSourceKwargs ty args conf).1.type_ = some "country" ∧
      (Command.getSourceKwargs ty args conf).1.value =
        some (.str (args.from_country.getD ""))) := by
  refine ⟨rfl, rfl, rfl, fun h => ?_⟩
  constructor <;> simp [Command.getSourceKwargs, h]

/-- C10 witness: with `--from-country GR`, the returned (and stored)
dictionary carries `type = "country"` and `value = "GR"`. -/
theorem claim_C10_witness :
    (Command.getSourceKwargs "ping" countryArgs exampleConf).1.type_ =
      some "country" ∧
    (Command.getSourceKwargs "ping" countryArgs exampleConf).1.value =
      some (SrcValue.str "GR") :=
  (claim_C10_source_kwargs "ping" countryArgs exampleConf).2.2.2 rfl

end RipeAtlasTools
